import Mathlib

/-!
Verification development for the ODIA TTS serving layer
(`backend/app/middleware/security.py`, `backend/app/services/{cache,dia,usage}.py`,
`backend/app/routers/{tts,voice}.py`).

Strings are embedded as `List Char`; timestamps (Python `time.time()` values)
as rationals; byte strings as `List Nat`.  External collaborators (the Supabase
key validator, the Redis store, the HF inference backends, pydub's MP3 encoder)
are passed in as explicit function arguments, mirroring the spec's
"external collaborator" boundary.
-/

namespace OdiaTTS

/-- Character-list strings, the embedding of Python `str`. -/
abbrev Str := List Char

/-- Byte strings (Python `bytes`). -/
abbrev Bytes := List Nat

/-- Python `s.strip()`: drop whitespace from both ends. -/
def pyStrip (s : Str) : Str :=
  ((s.dropWhile Char.isWhitespace).reverse.dropWhile Char.isWhitespace).reverse

/-- Python `s.lower()` (per-character lowering). -/
def pyLower (s : Str) : Str := s.map Char.toLower

/-- Python `a or b` on an optional string: `b` when `a` is `None` or empty. -/
def pyOr (a : Option Str) (b : Str) : Str :=
  match a with
  | none => b
  | some s => if s = [] then b else s

/-- Truthiness of an optional string header value (Python `if api_key:`). -/
def strTruthy (a : Option Str) : Bool :=
  match a with
  | none => false
  | some s => !s.isEmpty

/-! ### Rate limiter — `middleware/security.py`, `_rate_limits`, `rate_limit_tts`, `rate_limit_clone`

`_rate_limits` is a single `defaultdict(list)` keyed by the API key alone:
one timestamp list per tenant, shared by both limit classes.  The embedding
works on that per-tenant list directly.
-/

/-- The per-tenant timestamp list `_rate_limits[api_key]`. -/
abbrev Window := List ℚ

/-- An HTTP rejection raised by a gate (`HTTPException`): status code and the
optional `Retry-After` header value in seconds. -/
structure RejectInfo where
  status : Nat
  retryAfter : Option Nat
deriving Repr, DecidableEq

/-- The prune step of `rate_limit_tts`: keep timestamps with `now - ts < 60`. -/
def pruneTTS (w : Window) (now : ℚ) : Window :=
  w.filter (fun ts => now - ts < 60)

/-- The gate body of `rate_limit_tts` for a present, truthy API key: prune the
tenant's list to the last minute, reject 429/`Retry-After: 60` when the pruned
count is at least the limit, otherwise append `now`.  Returns the rejection (if
any) and the stored list after the call. -/
def rate_limit_tts (limit : Nat) (w : Window) (now : ℚ) : Option RejectInfo × Window :=
  let pruned := pruneTTS w now
  if limit ≤ pruned.length then (some ⟨429, some 60⟩, pruned)
  else (none, pruned ++ [now])

/-- Python `int(ts // 86400)`: the UTC day bucket of a timestamp. -/
def dayBucket (ts : ℚ) : ℤ := ⌊ts / 86400⌋

/-- The prune step of `rate_limit_clone`: keep timestamps with `ts > now - 86400`. -/
def pruneClone (w : Window) (now : ℚ) : Window :=
  w.filter (fun ts => now - 86400 < ts)

/-- The gate body of `rate_limit_clone` for a truthy API key: prune the
tenant's (shared) list to the last day, count entries in today's day bucket,
reject 429/`Retry-After: 86400` when that count reaches the limit, otherwise
append `now`. -/
def rate_limit_clone (limit : Nat) (w : Window) (now : ℚ) : Option RejectInfo × Window :=
  let pruned := pruneClone w now
  let todayClones := (pruned.filter (fun ts => dayBucket ts = dayBucket now)).length
  if limit ≤ todayClones then (some ⟨429, some 86400⟩, pruned)
  else (none, pruned ++ [now])

/-! ### Consent ledger — `middleware/security.py`, `_consent_records`, `require_consent` -/

/-- The literal `'true'` compared against the lowered consent form value. -/
def trueLit : Str := ['t', 'r', 'u', 'e']

/-- Adding an element to the membership set `_consent_records` (`set.add`). -/
def recordConsent (records : List Str) (k : Str) : List Str :=
  if k ∈ records then records else k :: records

/-- The gate body of `require_consent`: skipped entirely when the API key is
falsy or already in `_consent_records`; otherwise the form's `consent` value
must be present and lower to `'true'`, else reject 400; on success the key is
recorded.  Returns the rejection (if any) and the consent set after the call. -/
def require_consent (records : List Str) (apiKey : Option Str) (formConsent : Option Str) :
    Option RejectInfo × List Str :=
  match apiKey with
  | none => (none, records)
  | some k =>
    if k = [] then (none, records)
    else if k ∈ records then (none, records)
    else
      match formConsent with
      | none => (some ⟨400, none⟩, records)
      | some c =>
        if c = [] ∨ pyLower c ≠ trueLit then (some ⟨400, none⟩, records)
        else (none, recordConsent records k)

/-! ### Circuit breaker — `middleware/security.py`, `gpu_circuit_breaker`

The load signal (`random.randint(0, 100)` standing in for real GPU telemetry)
is pluggable per the spec, so each gate evaluation takes the sampled value as
an argument.
-/

/-- The breaker's process-wide state: `_gpu_util_history` and `_gpu_circuit_open`. -/
structure BreakerState where
  history : List ℚ
  isOpen : Bool
deriving Repr, DecidableEq

/-- Mean of the utilization history (`sum/len`, `0` for an empty list). -/
def breakerAvg (h : List ℚ) : ℚ :=
  if h = [] then 0 else h.sum / h.length

/-- One gate evaluation of `gpu_circuit_breaker` with the sampled load:
if the circuit is open it raises 429/`Retry-After: 30` immediately — before
sampling, so the history and state are untouched.  Otherwise the sample is
appended (evicting the oldest past 10), the mean computed, and the state
transitions: above 90 the circuit opens and the call is rejected; below 70 it
closes; in between it is unchanged. -/
def gpu_circuit_breaker (s : BreakerState) (sample : ℚ) : Option RejectInfo × BreakerState :=
  if s.isOpen then (some ⟨429, some 30⟩, s)
  else
    let h1 := s.history ++ [sample]
    let h2 := if 10 < h1.length then h1.tail else h1
    let avg := breakerAvg h2
    if 90 < avg then (some ⟨429, some 30⟩, ⟨h2, true⟩)
    else if avg < 70 then (none, ⟨h2, false⟩)
    else (none, ⟨h2, s.isOpen⟩)

/-- Feed a sequence of gated calls (with their sampled loads) through the
breaker, keeping only the final state. -/
def feedBreaker (s : BreakerState) (samples : List ℚ) : BreakerState :=
  samples.foldl (fun st smp => (gpu_circuit_breaker st smp).2) s

/-! ### Cache — `services/cache.py`, `cache_key`, `set_audio`

SHA-256 hex digesting is external (`hashlib`): it enters as an explicit
`digest` argument.  The pre-hash joined string is modelled exactly.
-/

/-- The literal `"base"` (default voice component). -/
def baseLit : Str := ['b', 'a', 's', 'e']

/-- The literal `"main"` (last-resort model revision). -/
def mainLit : Str := ['m', 'a', 'i', 'n']

/-- The literal `"tts:"` key namespace. -/
def keyPfx : Str := ['t', 't', 's', ':']

/-- The literal `"standard"` (default quality). -/
def stdQuality : Str := ['s', 't', 'a', 'n', 'd', 'a', 'r', 'd']

/-- The literal `"default"` (default sampler). -/
def stdSampler : Str := ['d', 'e', 'f', 'a', 'u', 'l', 't']

/-- The `"|".join(...)` string hashed by `cache_key`, built from the stripped
text, `voice_id or "base"`, `model_rev or settings.DIA_MODEL_REV or "main"`
(with the deployment's `DIA_MODEL_REV` as `defaultRev`), quality and sampler. -/
def keyString (text : Str) (voiceId : Option Str) (modelRev : Option Str)
    (defaultRev : Str) (quality sampler : Str) : Str :=
  pyStrip text ++ '|' :: pyOr voiceId baseLit
    ++ '|' :: pyOr modelRev (pyOr (some defaultRev) mainLit)
    ++ '|' :: quality ++ '|' :: sampler

/-- The cache fingerprint `"tts:" + sha256(key_string).hexdigest()`, with the
hex digest as the external `digest` function. -/
def cache_key (digest : Str → Str) (text : Str) (voiceId : Option Str)
    (modelRev : Option Str) (defaultRev : Str) (quality sampler : Str) : Str :=
  keyPfx ++ digest (keyString text voiceId modelRev defaultRev quality sampler)

/-- The TTL actually stored by `set_audio`:
`ttl if len(text) < 200 else min(ttl, 7200)`. -/
def actualTTL (text : Str) (ttl : Nat) : Nat :=
  if text.length < 200 then ttl else min ttl 7200

/-- A stored cache entry: key, expiry in seconds, and the MP3 bytes. -/
structure StoredEntry where
  key : Str
  expiry : Nat
  clip : Bytes
deriving Repr, DecidableEq

/-- The entry written by `set_audio` (`r.setex(cache_key(...), actual_ttl, audio_bytes)`). -/
def setClipEntry (digest : Str → Str) (text : Str) (voiceId : Option Str) (clip : Bytes)
    (modelRev : Option Str) (defaultRev : Str) (quality sampler : Str) (ttl : Nat) :
    StoredEntry :=
  ⟨cache_key digest text voiceId modelRev defaultRev quality sampler, actualTTL text ttl, clip⟩

/-! ### Usage recorder — `services/usage.py`, `log_usage` -/

/-- One row inserted into `usage_logs`. -/
structure UsageRecord where
  key : Str
  chars : Nat
  durationMs : Nat
  cacheHit : Bool
deriving Repr, DecidableEq

/-- The body of `log_usage`: skip entirely on an empty API key, otherwise
produce the row handed to the (external) ledger. -/
def log_usage (apiKey : Str) (chars durationMs : Nat) (cacheHit : Bool) :
    Option UsageRecord :=
  if apiKey = [] then none else some ⟨apiKey, chars, durationMs, cacheHit⟩

/-! ### Synthesis orchestrator — `services/dia.py`

Waveforms are float tensors in the source; their numeric content is opaque
here (only identity matters to the claims), so a waveform is either the
fixed-tone placeholder `torch.sin(2π·arange(16000)/16000·freq)` at a given
frequency or some backend-produced tensor.  The pydub MP3 encoding
`_wav_to_mp3_bytes` is external and enters as the `w2m` argument.  Backend
calls that can raise are `Except Unit`-valued; a backend whose output merely
mismatches the expected shape returns a value the hasattr/isinstance checks
reject.
-/

/-- A mono waveform: the deterministic placeholder tone, or backend output. -/
inductive Wav where
  | tone (freq : Nat)
  | backend (data : List Int)
deriving Repr, DecidableEq

/-- What `_PIPE(text, ...)` can return, collapsed to the cases the
`isinstance`/`in` checks of `_process_pipeline_output` distinguish: a dict
(with its `"audio"` entry when present and of type `bytes`, and its
`"waveform"` entry when present and a tensor), a raw tensor, or anything
else. -/
inductive PipeOut where
  | dict (audioEntry : Option Bytes) (waveformEntry : Option Wav)
  | tensor (w : Wav)
  | nonTensor
deriving Repr, DecidableEq

/-- A pipeline backend: called with the text and whether
`speaker_embeddings` was passed; may raise. -/
abbrev PipeBackend := Str → Bool → Except Unit PipeOut

/-- A raw model+processor backend (`_MODEL`/`_PROCESSOR` both loaded).
Each callable step may raise; the `has*` flags are the `hasattr` probes, and
the decode results are `some w` exactly when `isinstance(.., torch.Tensor)`
holds.  The speaker-embedding plumbing (`set_speaker_embeddings`, signature
inspection) only adds kwargs and is folded into `generateCall`. -/
structure RawBackend where
  procCall : Str → Except Unit Unit
  hasGenerate : Bool
  generateCall : Str → Except Unit Unit
  hasBatchDecode : Bool
  batchDecodeCall : Str → Except Unit (Option Wav)
  hasGenerateSpeech : Bool
  generateSpeechCall : Str → Except Unit (Option Wav)

/-- The body of `_process_pipeline_output`: dict with byte-valued `"audio"`
passes through; dict with tensor `"waveform"` and raw tensors are MP3-encoded;
everything else becomes the 880 Hz tone.  Total — it never raises. -/
def process_pipeline_output (w2m : Wav → Bytes) : PipeOut → Bytes
  | .dict (some b) _ => b
  | .dict none (some w) => w2m w
  | .dict none none => w2m (Wav.tone 880)
  | .tensor w => w2m w
  | .nonTensor => w2m (Wav.tone 880)

/-- The body of `_synthesize_with_pipeline`: call the pipeline (with the
embedding when one was supplied), process its output, and catch any exception
with the 880 Hz tone; the tone is also the fallback when `_PIPE is None`. -/
def synthesize_with_pipeline (pipe : Option PipeBackend) (w2m : Wav → Bytes)
    (text : Str) (withEmbed : Bool) : Bytes :=
  match pipe with
  | some p =>
    match p text withEmbed with
    | .ok out => process_pipeline_output w2m out
    | .error _ => w2m (Wav.tone 880)
  | none => w2m (Wav.tone 880)

/-- The raw-model branch of `_synthesize_impl` (lines 187–225): processor and
generation calls are NOT guarded by `try/except`, so their exceptions
propagate; API-shape mismatches (`hasattr`/`isinstance` failures) fall through
to the 440 Hz tone. -/
def synthRawPath (m : RawBackend) (w2m : Wav → Bytes) (text : Str) :
    Except Unit Bytes :=
  match m.procCall text with
  | .error e => .error e
  | .ok _ =>
    if m.hasGenerate then
      match m.generateCall text with
      | .error e => .error e
      | .ok _ =>
        if m.hasBatchDecode then
          match m.batchDecodeCall text with
          | .error e => .error e
          | .ok (some w) => .ok (w2m w)
          | .ok none => .ok (w2m (Wav.tone 440))
        else .ok (w2m (Wav.tone 440))
    else if m.hasGenerateSpeech then
      match m.generateSpeechCall text with
      | .error e => .error e
      | .ok (some w) => .ok (w2m w)
      | .ok none => .ok (w2m (Wav.tone 440))
    else .ok (w2m (Wav.tone 440))

/-- The body of `_synthesize_impl`: with a pipeline loaded, a supplied
embedding first tries the embedded call directly (its exception is caught,
retrying through `_synthesize_with_pipeline`, still with the embedding);
without a pipeline the raw path runs, and with neither backend the 440 Hz
tone is returned. -/
def synthesize_impl (pipe : Option PipeBackend) (raw : Option RawBackend)
    (w2m : Wav → Bytes) (text : Str) (hasEmbed : Bool) : Except Unit Bytes :=
  match pipe with
  | some p =>
    if hasEmbed then
      match p text true with
      | .ok out => .ok (process_pipeline_output w2m out)
      | .error _ => .ok (synthesize_with_pipeline (some p) w2m text true)
    else .ok (synthesize_with_pipeline (some p) w2m text false)
  | none =>
    match raw with
    | some m => synthRawPath m w2m text
    | none => .ok (w2m (Wav.tone 440))

/-- The public `synthesize` (timing print dropped). -/
def synthesize (pipe : Option PipeBackend) (raw : Option RawBackend)
    (w2m : Wav → Bytes) (text : Str) (hasEmbed : Bool) : Except Unit Bytes :=
  synthesize_impl pipe raw w2m text hasEmbed

/-- Structural worker for `sliceChunks`; the fuel starts at the byte length,
which bounds the number of loop iterations of `range(0, total, step)`. -/
def sliceChunksGo (stepPred : Nat) : Nat → Bytes → List Bytes
  | 0, _ => []
  | _, [] => []
  | fuel + 1, x :: xs => (x :: xs.take stepPred) :: sliceChunksGo stepPred fuel (xs.drop stepPred)

/-- Byte slicing `[mp3[i:i+step] for i in range(0, total, step)]`, with the
step passed as `stepPred + 1` (the source's step is always at least 1024). -/
def sliceChunks (stepPred : Nat) (l : Bytes) : List Bytes :=
  sliceChunksGo stepPred l.length l

/-- The chunk step of `synthesize_streaming`:
`parts = max(1, total // (16000 // (1000 // chunk_ms)))`,
`step = max(1024, total // parts)`. -/
def streamStep (total chunkMs : Nat) : Nat :=
  let parts := max 1 (total / (16000 / (1000 / chunkMs)))
  max 1024 (total / parts)

/-- The body of `synthesize_streaming`: synthesize the full MP3, then yield
its byte slices in order. -/
def synthesize_streaming (pipe : Option PipeBackend) (raw : Option RawBackend)
    (w2m : Wav → Bytes) (text : Str) (hasEmbed : Bool) (chunkMs : Nat) :
    Except Unit (List Bytes) :=
  (synthesize pipe raw w2m text hasEmbed).map
    (fun mp3 => sliceChunks (streamStep mp3.length chunkMs - 1) mp3)

/-! ### The `/tts` endpoint — `routers/tts.py`, `tts`

The decorator stack
`@rate_limit_tts() / @log_request() / @add_watermark_for_free_tier() / @gpu_circuit_breaker()`
applies bottom-up, so at call time the outermost wrapper `rate_limit_tts`
runs first, then `log_request` and `add_watermark_for_free_tier` (neither
gates), then `gpu_circuit_breaker`, and only then the endpoint body with its
auth and validation checks.  `validate_api_key` (Supabase) and the Redis
lookup are external and enter as functions.
-/

/-- The HTTP-level result of a `/tts` call. -/
inductive TTSOutcome where
  | ok (clip : Bytes)
  | err (r : RejectInfo)
deriving Repr, DecidableEq

/-- Per-tenant server state touched by a `/tts` call. -/
structure ServerState where
  window : Window
  breaker : BreakerState
deriving Repr, DecidableEq

/-- An inbound `/tts` request: `X-API-Key` header, body text and voice id. -/
structure TTSRequest where
  apiKey : Option Str
  text : Str
  voiceId : Option Str
deriving Repr, DecidableEq

/-- The endpoint body of `tts` (lines 66–109): 401 on invalid key, 400 on
empty/oversized stripped text, then the cache lookup and, on a miss, fresh
synthesis (the synthesized bytes enter as `synthClip`).  The returned list
collects every `log_usage` invocation the body performs — the source contains
none, on either the cache-hit or the synthesis path. -/
def ttsBody (keyValid : Str → Bool) (maxChars : Nat) (digest : Str → Str)
    (defaultRev : Str) (cacheGet : Str → Option Bytes) (synthClip : Bytes)
    (req : TTSRequest) : TTSOutcome × List UsageRecord :=
  let key := match req.apiKey with | none => [] | some k => k
  if !(keyValid key) then (.err ⟨401, none⟩, [])
  else
    let text := pyStrip req.text
    if text = [] ∨ maxChars < text.length then (.err ⟨400, none⟩, [])
    else
      match cacheGet (cache_key digest text req.voiceId (some defaultRev) defaultRev
          stdQuality stdSampler) with
      | some b => (.ok b, [])
      | none => (.ok synthClip, [])

/-- One `/tts` call through the full decorator chain, in its call-time order:
rate limiter (only for a truthy `X-API-Key` header), then circuit breaker,
then the body.  Returns the outcome, the usage-recorder invocations, and the
updated state. -/
def ttsEndpoint (keyValid : Str → Bool) (maxChars limit : Nat) (digest : Str → Str)
    (defaultRev : Str) (cacheGet : Str → Option Bytes) (synthClip : Bytes)
    (now sample : ℚ) (st : ServerState) (req : TTSRequest) :
    TTSOutcome × List UsageRecord × ServerState :=
  let step1 := if strTruthy req.apiKey then rate_limit_tts limit st.window now
               else (none, st.window)
  match step1 with
  | (some rej, w') => (.err rej, [], ⟨w', st.breaker⟩)
  | (none, w') =>
    match gpu_circuit_breaker st.breaker sample with
    | (some rej, bs') => (.err rej, [], ⟨w', bs'⟩)
    | (none, bs') =>
      let r := ttsBody keyValid maxChars digest defaultRev cacheGet synthClip req
      (r.1, r.2, ⟨w', bs'⟩)

/-! ### The `/clone` endpoint — `routers/voice.py`, `clone_voice`

Decorators bottom-up again: `rate_limit_clone` first, then `require_consent`,
then `log_request`, then the body.  The `consent` form field is declared
`Form(...)` (required), so the framework guarantees a string is present on
every call that reaches the handler; the body re-validates it against
`'true'` unconditionally.
-/

/-- Per-tenant server state touched by a `/clone` call. -/
structure CloneState where
  window : Window
  consents : List Str
deriving Repr, DecidableEq

/-- An inbound `/clone` request: header key, the (required) consent form
field, and the outcomes of the upload's content-type and size checks. -/
structure CloneRequest where
  apiKey : Option Str
  consentForm : Str
  contentTypeOk : Bool
  sizeOk : Bool
deriving Repr, DecidableEq

/-- The HTTP-level result of a `/clone` call (embedding extraction and
profile storage are external; their failures are 500s, folded into `ok`
versus the gate rejections the claims are about). -/
inductive CloneOutcome where
  | ok
  | err (r : RejectInfo)
deriving Repr, DecidableEq

/-- The endpoint body of `clone_voice` (lines 47–64): 401 on invalid key,
then the unconditional consent re-validation (400 unless the form field
lowers to `'true'`), then upload type and size checks. -/
def cloneBody (keyValid : Str → Bool) (req : CloneRequest) : CloneOutcome :=
  let key := match req.apiKey with | none => [] | some k => k
  if !(keyValid key) then .err ⟨401, none⟩
  else if pyLower req.consentForm ≠ trueLit then .err ⟨400, none⟩
  else if !req.contentTypeOk then .err ⟨400, none⟩
  else if !req.sizeOk then .err ⟨400, none⟩
  else .ok

/-- One `/clone` call through the full decorator chain in call-time order:
clone-class rate limiter, consent gate (the wrapper reads the same form
field), then the body. -/
def cloneEndpoint (keyValid : Str → Bool) (cloneLimit : Nat) (now : ℚ)
    (st : CloneState) (req : CloneRequest) : CloneOutcome × CloneState :=
  let step1 := if strTruthy req.apiKey then rate_limit_clone cloneLimit st.window now
               else (none, st.window)
  match step1 with
  | (some rej, w') => (.err rej, ⟨w', st.consents⟩)
  | (none, w') =>
    match require_consent st.consents req.apiKey (some req.consentForm) with
    | (some rej, cs') => (.err rej, ⟨w', cs'⟩)
    | (none, cs') => (cloneBody keyValid req, ⟨w', cs'⟩)

/-! ### Auxiliary predicates used by the statements -/

/-- An `Except` value that did not raise. -/
def exOk {ε α : Type} : Except ε α → Bool
  | .ok _ => true
  | .error _ => false

/-- A raw backend none of whose callable steps raises (its output may still
mismatch the expected API shape). -/
def rawNoRaise (raw : Option RawBackend) (text : Str) : Bool :=
  match raw with
  | none => true
  | some m =>
    exOk (m.procCall text) && exOk (m.generateCall text)
      && exOk (m.batchDecodeCall text) && exOk (m.generateSpeechCall text)

/-! ## Theorems -/

/-- Helper: the `/tts` endpoint body performs no `log_usage` invocation on any
path (there is no call in the source). -/
theorem ttsBody_no_usage (keyValid : Str → Bool) (maxChars : Nat) (digest : Str → Str)
    (defaultRev : Str) (cacheGet : Str → Option Bytes) (synthClip : Bytes) (req : TTSRequest) :
    (ttsBody keyValid maxChars digest defaultRev cacheGet synthClip req).2 = [] := by
  unfold ttsBody
  dsimp only
  repeat' split
  all_goals rfl

/-- C2 evaluation at the failing input: from CLOSED with empty history, one
gated call sampling load 95 opens the circuit (and nine further ≥ 95 calls are
rejected without sampling); ten subsequent gated calls sampling load 60 are
each rejected with retry-after 30 before the sample/transition logic runs, so
the state — history `[95]`, OPEN — never changes and the breaker never closes. -/
theorem c2_breaker_stuck_open :
    feedBreaker ⟨[], false⟩ (List.replicate 10 95) = ⟨[95], true⟩
    ∧ feedBreaker ⟨[95], true⟩ (List.replicate 10 60) = ⟨[95], true⟩
    ∧ (gpu_circuit_breaker ⟨[95], true⟩ 60).1 = some ⟨429, some 30⟩ := by
  norm_num [feedBreaker, gpu_circuit_breaker, breakerAvg, List.replicate, List.foldl]

/-- C3: the synthesis-class limiter admits iff fewer than the limit's worth of
recorded timestamps lie in the rolling 60-second window ending at the check
time; the new timestamp is recorded exactly on admission; a rejection is a
429 with `Retry-After: 60` and records nothing; and once every recorded
timestamp is at least 60 seconds old the next attempt is admitted. -/
theorem c3_tts_sliding_window (limit : Nat) (w : Window) (now now' : ℚ) :
    ((rate_limit_tts limit w now).1 = none
        ↔ (w.filter (fun ts => now - ts < 60)).length < limit)
    ∧ ((rate_limit_tts limit w now).1 = none →
        (rate_limit_tts limit w now).2 = pruneTTS w now ++ [now])
    ∧ (limit ≤ (pruneTTS w now).length →
        rate_limit_tts limit w now = (some ⟨429, some 60⟩, pruneTTS w now))
    ∧ (0 < limit → (∀ ts ∈ w, ts + 60 ≤ now') → (rate_limit_tts limit w now').1 = none) := by
  have hq : rate_limit_tts limit w now =
      if limit ≤ (pruneTTS w now).length then (some ⟨429, some 60⟩, pruneTTS w now)
      else (none, pruneTTS w now ++ [now]) := rfl
  have hf : pruneTTS w now = w.filter (fun ts => now - ts < 60) := rfl
  refine ⟨?_, ?_, ?_, ?_⟩
  · rw [hq, ← hf]
    by_cases h : limit ≤ (pruneTTS w now).length
    · simp [h, Nat.not_lt.mpr h]
    · simp [h, Nat.lt_of_not_le h]
  · rw [hq]
    by_cases h : limit ≤ (pruneTTS w now).length
    · simp [h]
    · simp [h]
  · intro h
    rw [hq, if_pos h]
  · intro hl hmem
    have hp : pruneTTS w now' = [] := by
      simp only [pruneTTS, List.filter_eq_nil_iff]
      intro ts hts
      have := hmem ts hts
      simp only [decide_eq_true_eq, not_lt]
      linarith
    have hq' : rate_limit_tts limit w now' =
        if limit ≤ (pruneTTS w now').length then (some ⟨429, some 60⟩, pruneTTS w now')
        else (none, pruneTTS w now' ++ [now']) := rfl
    rw [hq', hp]
    simp [Nat.le_zero, Nat.pos_iff_ne_zero.mp hl]

/-- Witness for C3 at a concrete input: with limit 2 and two timestamps at 30,
a third attempt at 30 is rejected with 429 / retry-after 60 and records
nothing, while an attempt at 95 (both timestamps ≥ 60 s old) is admitted. -/
theorem c3_tts_sliding_window_witness :
    rate_limit_tts 2 [(30:ℚ), 30] 30 = (some ⟨429, some 60⟩, [30, 30])
    ∧ (rate_limit_tts 2 [(30:ℚ), 30] 95).1 = none := by
  constructor
  · have hp : pruneTTS [(30:ℚ), 30] 30 = [30, 30] := by
      norm_num [pruneTTS]
    have h := (c3_tts_sliding_window 2 [(30:ℚ), 30] 30 95).2.2.1 (by rw [hp]; norm_num)
    rw [hp] at h
    exact h
  · exact (c3_tts_sliding_window 2 [(30:ℚ), 30] 30 95).2.2.2 (by norm_num)
      (by
        intro ts hts
        simp only [List.mem_cons, List.not_mem_nil, or_false] at hts
        rcases hts with rfl | rfl <;> norm_num)

/-- C4 (amended): the per-tenant timestamp list is shared by both limit
classes.  An admitted synthesis-class event at time `t` is counted against the
clone-class daily limit at time `t` (here the very first clone attempt is
rejected under a daily limit of 1 although no clone was ever admitted); an
admitted clone-class event at time `t` — within the last 60 seconds — is
counted against the synthesis-class per-minute limit at time `t` (here the
very first synthesis attempt is rejected under a per-minute limit of 1
although no synthesis request was ever admitted); and a timestamp 60 s old —
still inside the clone class's 24-hour prune window — is removed from the
shared list by a synthesis-class check. -/
theorem c4_shared_rate_window (t : ℚ) (L : Nat) :
    (rate_limit_tts 120 [] t).1 = none
    ∧ (rate_limit_clone 1 ((rate_limit_tts 120 [] t).2) t).1 = some ⟨429, some 86400⟩
    ∧ (rate_limit_clone 5 [] t).1 = none
    ∧ (rate_limit_tts 1 ((rate_limit_clone 5 [] t).2) t).1 = some ⟨429, some 60⟩
    ∧ (t - 60) ∈ pruneClone [t - 60] t
    ∧ (t - 60) ∉ (rate_limit_tts L [t - 60] t).2 := by
  have h1 : rate_limit_tts 120 [] t = (none, [t]) := by
    norm_num [rate_limit_tts, pruneTTS]
  have hc1 : rate_limit_clone 5 [] t = (none, [t]) := by
    norm_num [rate_limit_clone, pruneClone]
  refine ⟨by simp [h1], ?_, by simp [hc1], ?_, ?_, ?_⟩
  · rw [h1]
    have hp : pruneClone [t] t = [t] := by
      norm_num [pruneClone, sub_lt_self_iff]
    simp [rate_limit_clone, hp]
  · rw [hc1]
    have hp : pruneTTS [t] t = [t] := by
      norm_num [pruneTTS, sub_self]
    simp [rate_limit_tts, hp]
  · norm_num [pruneClone, sub_lt_sub_iff_left]
  · have hp : pruneTTS [t - 60] t = [] := by
      norm_num [pruneTTS, sub_sub_cancel]
    simp only [rate_limit_tts, hp]
    split
    · simp
    · simp [sub_eq_self]

set_option maxRecDepth 8000 in
/-- C4 counterexample at concrete inputs: a synthesis-class admission at
`t = 0` is immediately counted against the clone-class daily limit (the first
clone attempt rejects under limit 1); a clone-class admission at `t = 0` is
immediately counted against the synthesis-class per-minute limit (the first
synthesis attempt rejects under limit 1); and a clone timestamp at 10 — in
the same UTC day bucket as `now = 100` — is pruned away by a synthesis-class
check at 100, contradicting all three of the claim's assertions. -/
theorem c4_cross_class_counterexample :
    (rate_limit_tts 120 [] 0).1 = none
    ∧ (rate_limit_clone 1 ((rate_limit_tts 120 [] 0).2) 0).1 = some ⟨429, some 86400⟩
    ∧ (rate_limit_clone 5 [] 0).1 = none
    ∧ (rate_limit_tts 1 ((rate_limit_clone 5 [] 0).2) 0).1 = some ⟨429, some 60⟩
    ∧ dayBucket 10 = dayBucket 100
    ∧ (rate_limit_tts 120 [(10:ℚ)] 100).2 = [100] := by
  norm_num [rate_limit_tts, rate_limit_clone, pruneTTS, pruneClone, dayBucket]

/-- C8: the stored expiry is the requested TTL for texts under 200 characters
and `min(requested, 7200)` at or above 200 characters; concretely, a
50-character text stored with the default 86400 keeps the full TTL and a
500-character text is capped at 7200. -/
theorem c8_ttl_tiering (digest : Str → Str) (text : Str) (voiceId modelRev : Option Str)
    (defaultRev quality sampler : Str) (clip : Bytes) (ttl : Nat) :
    ((text.length < 200 →
        (setClipEntry digest text voiceId clip modelRev defaultRev quality sampler ttl).expiry
          = ttl)
      ∧ (200 ≤ text.length →
        (setClipEntry digest text voiceId clip modelRev defaultRev quality sampler ttl).expiry
          = min ttl 7200))
    ∧ (setClipEntry digest (List.replicate 50 'a') voiceId clip modelRev defaultRev quality
        sampler 86400).expiry = 86400
    ∧ (setClipEntry digest (List.replicate 500 'a') voiceId clip modelRev defaultRev quality
        sampler 86400).expiry = 7200 := by
  refine ⟨⟨fun h => ?_, fun h => ?_⟩, ?_, ?_⟩
  · simp [setClipEntry, actualTTL, h]
  · simp [setClipEntry, actualTTL, Nat.not_lt.mpr h]
  · norm_num [setClipEntry, actualTTL, List.length_replicate]
  · norm_num [setClipEntry, actualTTL, List.length_replicate]

/-- Witness for C8: a 10-character text stored with requested TTL 1234 keeps
expiry 1234. -/
theorem c8_ttl_tiering_witness :
    (setClipEntry id (List.replicate 10 'a') none [] none [] [] [] 1234).expiry = 1234 :=
  (c8_ttl_tiering id (List.replicate 10 'a') none none [] [] [] [] 1234).1.1 (by decide)

/-- C9 (amended): the `/tts` handler never invokes the usage recorder — on
every path, rejected or completed, from cache or from fresh synthesis, the
list of `log_usage` invocations is empty; and `log_usage` itself is a no-op
for an empty tenant key. -/
theorem c9_usage_recorder_never_invoked :
    (∀ (keyValid : Str → Bool) (maxChars limit : Nat) (digest : Str → Str) (defaultRev : Str)
      (cacheGet : Str → Option Bytes) (synthClip : Bytes) (now sample : ℚ)
      (st : ServerState) (req : TTSRequest),
      (ttsEndpoint keyValid maxChars limit digest defaultRev cacheGet synthClip
        now sample st req).2.1 = [])
    ∧ ∀ (chars durationMs : Nat) (cacheHit : Bool),
        log_usage [] chars durationMs cacheHit = none := by
  constructor
  · intro keyValid maxChars limit digest defaultRev cacheGet synthClip now sample st req
    unfold ttsEndpoint
    rcases hs : (if strTruthy req.apiKey then rate_limit_tts limit st.window now
        else (none, st.window)) with ⟨o, w'⟩
    rcases o with _ | rej
    · rcases hb : gpu_circuit_breaker st.breaker sample with ⟨ob, bs'⟩
      rcases ob with _ | rejb
      · simp only [hs, hb]
        exact ttsBody_no_usage keyValid maxChars digest defaultRev cacheGet synthClip req
      · simp only [hs, hb]
    · simp only [hs]
  · intro chars durationMs cacheHit
    rfl

/-- C9 counterexample: a fully completed `/tts` request — valid key, valid
text, served from the cache — returns the cached bytes with an empty list of
usage-recorder invocations, so the recorder is not invoked with
`cache_hit = true` (or at all) after a completed request. -/
theorem c9_completed_request_no_usage_event :
    ttsEndpoint (fun _ => true) 800 120 id mainLit (fun _ => some [7]) [] 0 0
      ⟨[], ⟨[], false⟩⟩ ⟨some ['k'], ['h', 'i'], none⟩
      = (.ok [7], [], ⟨[0], ⟨[0], false⟩⟩) := by
  norm_num [ttsEndpoint, ttsBody, rate_limit_tts, pruneTTS, gpu_circuit_breaker, breakerAvg,
    strTruthy]
  constructor <;> decide

/-- C1 (amended): for a request carrying a non-empty `X-API-Key` header, the
`/tts` gates are evaluated in the call-time decorator order — rate limiter
first (its 429 fires regardless of key validity or text, and an admission
appends the timestamp), then circuit breaker, then tenant authentication
(401), then text-bounds validation (400); in particular a request that fails
authentication or validation has already consumed a rate-limit slot. -/
theorem c1_gate_order (keyValid : Str → Bool) (maxChars limit : Nat) (digest : Str → Str)
    (defaultRev : Str) (cacheGet : Str → Option Bytes) (synthClip : Bytes)
    (now sample : ℚ) (st : ServerState) (req : TTSRequest) (k : Str)
    (hk : req.apiKey = some k) (hk0 : k ≠ []) :
    (limit ≤ (pruneTTS st.window now).length →
      ttsEndpoint keyValid maxChars limit digest defaultRev cacheGet synthClip now sample st req
        = (.err ⟨429, some 60⟩, [], ⟨pruneTTS st.window now, st.breaker⟩))
    ∧ ((pruneTTS st.window now).length < limit →
        ((ttsEndpoint keyValid maxChars limit digest defaultRev cacheGet synthClip
            now sample st req).2.2.window = pruneTTS st.window now ++ [now]
        ∧ (∀ rej bs', gpu_circuit_breaker st.breaker sample = (some rej, bs') →
            (ttsEndpoint keyValid maxChars limit digest defaultRev cacheGet synthClip
              now sample st req).1 = .err rej)
        ∧ (∀ bs', gpu_circuit_breaker st.breaker sample = (none, bs') →
            ((keyValid k = false →
              (ttsEndpoint keyValid maxChars limit digest defaultRev cacheGet synthClip
                now sample st req).1 = .err ⟨401, none⟩)
            ∧ (keyValid k = true →
              (pyStrip req.text = [] ∨ maxChars < (pyStrip req.text).length) →
              (ttsEndpoint keyValid maxChars limit digest defaultRev cacheGet synthClip
                now sample st req).1 = .err ⟨400, none⟩))))) := by
  have hst : strTruthy req.apiKey = true := by
    simp [strTruthy, hk, hk0]
  have hq : rate_limit_tts limit st.window now =
      if limit ≤ (pruneTTS st.window now).length
      then (some ⟨429, some 60⟩, pruneTTS st.window now)
      else (none, pruneTTS st.window now ++ [now]) := rfl
  constructor
  · intro h
    unfold ttsEndpoint
    simp only [hst, if_true, hq, if_pos h]
  · intro h
    have hq' : rate_limit_tts limit st.window now =
        (none, pruneTTS st.window now ++ [now]) := by
      rw [hq, if_neg (by omega)]
    refine ⟨?_, ?_, ?_⟩
    · unfold ttsEndpoint
      simp only [hst, if_true, hq']
      rcases hb : gpu_circuit_breaker st.breaker sample with ⟨ob, bs'⟩
      rcases ob with _ | rejb <;> simp [hb]
    · intro rej bs' hb
      unfold ttsEndpoint
      simp only [hst, if_true, hq', hb]
    · intro bs' hb
      constructor
      · intro hkv
        unfold ttsEndpoint
        simp only [hst, if_true, hq', hb]
        unfold ttsBody
        simp [hk, hkv]
      · intro hkv htext
        unfold ttsEndpoint
        simp only [hst, if_true, hq', hb]
        unfold ttsBody
        simp [hk, hkv, htext]

/-- C1 counterexample: first, a request with an invalid API key on an empty
window is rejected 401 but its timestamp is recorded — the rate-limit slot is
consumed despite the failed authentication.  Second, with the window already
at the limit, the same invalid-key request is rejected 429 with retry-after
60 — the rate limiter fires before authentication, where the claimed order
would give 401. -/
theorem c1_auth_after_limiter_counterexample :
    ttsEndpoint (fun _ => false) 800 120 id mainLit (fun _ => none) [] 0 0
      ⟨[], ⟨[], false⟩⟩ ⟨some ['k'], ['h', 'i'], none⟩
      = (.err ⟨401, none⟩, [], ⟨[0], ⟨[0], false⟩⟩)
    ∧ ttsEndpoint (fun _ => false) 800 1 id mainLit (fun _ => none) [] 0 0
      ⟨[(0:ℚ)], ⟨[], false⟩⟩ ⟨some ['k'], ['h', 'i'], none⟩
      = (.err ⟨429, some 60⟩, [], ⟨[0], ⟨[], false⟩⟩) := by
  constructor
  · norm_num [ttsEndpoint, ttsBody, rate_limit_tts, pruneTTS, gpu_circuit_breaker, breakerAvg,
      strTruthy]
  · norm_num [ttsEndpoint, ttsBody, rate_limit_tts, pruneTTS, gpu_circuit_breaker, breakerAvg,
      strTruthy]

/-- Witness for C1 at a concrete input: an admitted-then-401 request consumed
its slot (window `[] ↦ [0]`) and was rejected by the in-body auth check. -/
theorem c1_gate_order_witness :
    (ttsEndpoint (fun _ => false) 800 120 id mainLit (fun _ => none) [] 0 0
      ⟨[], ⟨[], false⟩⟩ ⟨some ['k'], ['h', 'i'], none⟩).2.2.window = pruneTTS [] 0 ++ [0]
    ∧ (ttsEndpoint (fun _ => false) 800 120 id mainLit (fun _ => none) [] 0 0
      ⟨[], ⟨[], false⟩⟩ ⟨some ['k'], ['h', 'i'], none⟩).1 = .err ⟨401, none⟩ := by
  have h := c1_gate_order (fun _ => false) 800 120 id mainLit (fun _ => none) [] 0 0
      ⟨[], ⟨[], false⟩⟩ ⟨some ['k'], ['h', 'i'], none⟩ ['k'] rfl (by decide)
  have h2 := h.2 (by norm_num [pruneTTS])
  refine ⟨h2.1, ?_⟩
  have hb : gpu_circuit_breaker ⟨[], false⟩ 0 = (none, ⟨[0], false⟩) := by
    norm_num [gpu_circuit_breaker, breakerAvg]
  exact (h2.2.2 ⟨[0], false⟩ hb).1 rfl

/-- C5 (amended): recording consent is idempotent and the middleware gate
passes every tenant whose consent is already recorded (and records the tenant
on a successful first pass); but the clone endpoint body re-validates the
`consent` form field on every call, so a clone request only ever succeeds
when `consent` lowers to `'true'` in that same call — consent must be
resubmitted each time, the ledger notwithstanding. -/
theorem c5_consent_ledger (records : List Str) (k : Str) (f : Option Str)
    (keyValid : Str → Bool) (cloneLimit : Nat) (now : ℚ) (st : CloneState)
    (req : CloneRequest) :
    (recordConsent (recordConsent records k) k = recordConsent records k)
    ∧ (k ∈ records → require_consent records (some k) f = (none, records))
    ∧ (k ≠ [] → (require_consent records (some k) f).1 = none →
        k ∈ (require_consent records (some k) f).2)
    ∧ ((cloneEndpoint keyValid cloneLimit now st req).1 = .ok →
        pyLower req.consentForm = trueLit) := by
  refine ⟨?_, ?_, ?_, ?_⟩
  · by_cases h : k ∈ records
    · simp [recordConsent, h]
    · simp [recordConsent, h]
  · intro h
    by_cases hk : k = [] <;> simp [require_consent, hk, h]
  · intro hk h
    by_cases hm : k ∈ records
    · simp [require_consent, hk, hm]
    · rcases f with _ | c
      · simp [require_consent, hk, hm] at h
      · by_cases hc : c = [] ∨ pyLower c ≠ trueLit
        · simp [require_consent, hk, hm, hc] at h
        · simp [require_consent, recordConsent, hk, hm, hc]
  · intro hok
    unfold cloneEndpoint at hok
    rcases hs : (if strTruthy req.apiKey then rate_limit_clone cloneLimit st.window now
        else (none, st.window)) with ⟨o, w'⟩
    rw [hs] at hok
    rcases o with _ | rej
    · rcases hc : require_consent st.consents req.apiKey (some req.consentForm) with ⟨oc, cs'⟩
      rw [hc] at hok
      rcases oc with _ | rej
      · unfold cloneBody at hok
        dsimp only at hok
        split_ifs at hok with h1 h2 h3 h4
        · exact not_ne_iff.mp h2
      · simp at hok
    · simp at hok

/-- C5 counterexample: tenant `"k"` has recorded consent, yet a subsequent
clone request that does not resubmit `consent='true'` (form value `"false"`)
is rejected 400 by the endpoint body's unconditional consent re-validation —
the consent gate itself passed. -/
theorem c5_recorded_consent_still_400 :
    (cloneEndpoint (fun _ => true) 5 0 ⟨[], [['k']]⟩
      ⟨some ['k'], ['f', 'a', 'l', 's', 'e'], true, true⟩).1 = .err ⟨400, none⟩ := by
  norm_num [cloneEndpoint, cloneBody, rate_limit_clone, require_consent, pruneClone, dayBucket,
    strTruthy, pyLower, trueLit]

/-- Witness for C5 at concrete inputs: with consent already recorded for
`"k"`, the gate passes without any form value, and recording twice is a
no-op. -/
theorem c5_consent_ledger_witness :
    require_consent [['k']] (some ['k']) none = (none, [['k']])
    ∧ recordConsent (recordConsent [] ['k']) ['k'] = recordConsent [] ['k'] := by
  constructor
  · exact (c5_consent_ledger [['k']] ['k'] none (fun _ => true) 5 0 ⟨[], []⟩
      ⟨none, [], true, true⟩).2.1 (by decide)
  · exact (c5_consent_ledger [] ['k'] none (fun _ => true) 5 0 ⟨[], []⟩
      ⟨none, [], true, true⟩).1

/-- C6 (amended): synthesis never raises whenever a pipeline backend is
loaded (its exceptions are caught, down to the 880 Hz tone), and, on the raw
path, whenever the processor/generate/decode calls themselves return without
raising — API-shape mismatches fall through to the 440 Hz tone.  (An
exception raised inside the raw path, by contrast, propagates: see the
counterexample.) -/
theorem c6_no_raise (pipe : Option PipeBackend) (raw : Option RawBackend)
    (w2m : Wav → Bytes) (text : Str) (se : Bool)
    (h : (pipe.isSome || rawNoRaise raw text) = true) :
    exOk (synthesize pipe raw w2m text se) = true := by
  rcases pipe with _ | p
  · rcases raw with _ | m
    · rfl
    · simp only [Option.isSome_none, Bool.false_or] at h
      unfold rawNoRaise at h
      simp only [Bool.and_eq_true] at h
      obtain ⟨⟨⟨hp, hg⟩, hbd⟩, hgs⟩ := h
      unfold synthesize synthesize_impl synthRawPath
      rcases hpc : m.procCall text with e | u
      · rw [hpc] at hp; simp [exOk] at hp
      · simp only [hpc]
        by_cases hgen : m.hasGenerate
        · rcases hgc : m.generateCall text with e | u2
          · rw [hgc] at hg; simp [exOk] at hg
          · simp only [hgen, if_true, hgc]
            by_cases hbdk : m.hasBatchDecode
            · rcases hbdc : m.batchDecodeCall text with e | w?
              · rw [hbdc] at hbd; simp [exOk] at hbd
              · simp only [hbdk, if_true, hbdc]
                rcases w? with _ | w <;> simp [exOk]
            · simp [hbdk, exOk]
        · by_cases hgsk : m.hasGenerateSpeech
          · rcases hgsc : m.generateSpeechCall text with e | w?
            · rw [hgsc] at hgs; simp [exOk] at hgs
            · simp only [hgen, Bool.false_eq_true, if_false, hgsk, if_true, hgsc]
              rcases w? with _ | w <;> simp [exOk]
          · simp [hgen, hgsk, exOk]
  · unfold synthesize synthesize_impl
    by_cases hse : se
    · rcases hpo : p text true with e | out <;> simp [hse, hpo, exOk]
    · simp [hse, exOk]

/-- Witness for C6 at a concrete input: raw backend whose calls all return
(though every API probe fails) — synthesis returns the tone without raising. -/
theorem c6_no_raise_witness :
    exOk (synthesize none (some ⟨fun _ => .ok (), true, fun _ => .ok (), false,
      fun _ => .ok none, false, fun _ => .ok none⟩) (fun _ => [1]) ['h'] false) = true :=
  c6_no_raise none (some ⟨fun _ => .ok (), true, fun _ => .ok (), false,
    fun _ => .ok none, false, fun _ => .ok none⟩) (fun _ => [1]) ['h'] false (by decide)

/-- C6 counterexample: with no pipeline and a raw model whose `generate` call
raises, `synthesize` propagates the exception instead of falling back to the
placeholder — for a perfectly well-formed text the function raises, refuting
"never raises when the primary and secondary paths both fail". -/
theorem c6_raw_exception_propagates :
    synthesize none (some ⟨fun _ => .ok (), true, fun _ => .error (), false,
      fun _ => .ok none, false, fun _ => .ok none⟩) (fun _ => []) ['h', 'i'] false
      = .error () := rfl

/-- Helper: splitting at a separator not occurring in either prefix is
injective. -/
theorem append_pipe_inj {u u' v v' : Str} (hu : '|' ∉ u) (hu' : '|' ∉ u')
    (h : u ++ '|' :: v = u' ++ '|' :: v') : u = u' ∧ v = v' := by
  induction u generalizing u' with
  | nil =>
    cases u' with
    | nil => simpa using h
    | cons a t =>
      simp only [List.nil_append, List.cons_append, List.cons.injEq] at h
      have hmem : '|' ∈ a :: t := by rw [h.1]; exact List.mem_cons_self a t
      exact absurd hmem hu'
  | cons a t ih =>
    cases u' with
    | nil =>
      simp only [List.cons_append, List.nil_append, List.cons.injEq] at h
      have hmem : '|' ∈ a :: t := by rw [← h.1]; exact List.mem_cons_self a t
      exact absurd hmem hu
    | cons b t' =>
      simp only [List.cons_append, List.cons.injEq] at h
      obtain ⟨hab, hrest⟩ := h
      have hu2 : '|' ∉ t := fun hm => hu (List.mem_cons_of_mem _ hm)
      have hu2' : '|' ∉ t' := fun hm => hu' (List.mem_cons_of_mem _ hm)
      obtain ⟨e1, e2⟩ := ih hu2 hu2' hrest
      exact ⟨by rw [hab, e1], e2⟩

/-- C7 (amended): two calls produce the same pre-hash key string iff their
normalized tuples — stripped text, `voice_id or "base"`, resolved model
revision, quality, sampler — agree, provided no component contains the `'|'`
separator; the fingerprint is the digest of exactly this string, so identical
tuples always produce identical fingerprints, and distinct pipe-free tuples
produce distinct digest inputs.  (Components containing `'|'` can collide:
see the counterexample.) -/
theorem c7_fingerprint_iff (t t' : Str) (v v' r r' : Option Str) (d d' q q' s s' : Str)
    (h1 : '|' ∉ pyStrip t) (h1' : '|' ∉ pyStrip t')
    (h2 : '|' ∉ pyOr v baseLit) (h2' : '|' ∉ pyOr v' baseLit)
    (h3 : '|' ∉ pyOr r (pyOr (some d) mainLit))
    (h3' : '|' ∉ pyOr r' (pyOr (some d') mainLit))
    (h4 : '|' ∉ q) (h4' : '|' ∉ q') :
    keyString t v r d q s = keyString t' v' r' d' q' s'
      ↔ (pyStrip t = pyStrip t' ∧ pyOr v baseLit = pyOr v' baseLit
          ∧ pyOr r (pyOr (some d) mainLit) = pyOr r' (pyOr (some d') mainLit)
          ∧ q = q' ∧ s = s') := by
  constructor
  · intro h
    unfold keyString at h
    simp only [List.append_assoc, List.cons_append] at h
    obtain ⟨e1, h⟩ := append_pipe_inj h1 h1' h
    obtain ⟨e2, h⟩ := append_pipe_inj h2 h2' h
    obtain ⟨e3, h⟩ := append_pipe_inj h3 h3' h
    obtain ⟨e4, e5⟩ := append_pipe_inj h4 h4' h
    exact ⟨e1, e2, e3, e4, e5⟩
  · rintro ⟨e1, e2, e3, e4, e5⟩
    unfold keyString
    rw [e1, e2, e3, e4, e5]

/-- C7 counterexample: the tuples `("a|b", "c", …)` and `("a", "b|c", …)`
differ in both their text and voice components, yet their joined key strings
— and hence their fingerprints under any digest — coincide, refuting "tuples
differing in any component always produce different fingerprints". -/
theorem c7_pipe_collision :
    keyString ['a', '|', 'b'] (some ['c']) (some ['r']) mainLit stdQuality stdSampler
      = keyString ['a'] (some ['b', '|', 'c']) (some ['r']) mainLit stdQuality stdSampler
    ∧ (['a', '|', 'b'] : Str) ≠ ['a']
    ∧ (some ['c'] : Option Str) ≠ some ['b', '|', 'c']
    ∧ cache_key id ['a', '|', 'b'] (some ['c']) (some ['r']) mainLit stdQuality stdSampler
      = cache_key id ['a'] (some ['b', '|', 'c']) (some ['r']) mainLit stdQuality stdSampler := by
  refine ⟨by decide, by decide, by decide, by decide⟩

/-- Witness for C7 at a concrete input: distinct pipe-free texts `"x"`, `"y"`
give distinct key strings (the iff's right side is refutable componentwise). -/
theorem c7_fingerprint_iff_witness :
    keyString ['x'] none none mainLit stdQuality stdSampler
      = keyString ['y'] none none mainLit stdQuality stdSampler
      ↔ (pyStrip ['x'] = pyStrip ['y'] ∧ pyOr none baseLit = pyOr none baseLit
          ∧ pyOr none (pyOr (some mainLit) mainLit) = pyOr none (pyOr (some mainLit) mainLit)
          ∧ stdQuality = stdQuality ∧ stdSampler = stdSampler) :=
  c7_fingerprint_iff ['x'] ['y'] none none none none mainLit mainLit stdQuality stdQuality
    stdSampler stdSampler (by decide) (by decide) (by decide) (by decide) (by decide)
    (by decide) (by decide) (by decide)

/-- Helper: concatenating the slices restores the original byte string. -/
theorem sliceChunksGo_join (k : Nat) :
    ∀ (fuel : Nat) (l : Bytes), l.length ≤ fuel → (sliceChunksGo k fuel l).flatten = l := by
  intro fuel
  induction fuel with
  | zero =>
    intro l hl
    rw [Nat.le_zero, List.length_eq_zero] at hl
    subst hl
    rfl
  | succ n ih =>
    intro l hl
    cases l with
    | nil => rfl
    | cons x xs =>
      have hlen : (List.drop k xs).length ≤ n := by
        simp only [List.length_cons] at hl
        simp only [List.length_drop]
        omega
      simp only [sliceChunksGo, List.flatten_cons]
      rw [ih _ hlen, List.cons_append, List.take_append_drop]

/-- Helper: every produced slice is non-empty. -/
theorem sliceChunksGo_ne_nil (k : Nat) :
    ∀ (fuel : Nat) (l c : Bytes), c ∈ sliceChunksGo k fuel l → c ≠ [] := by
  intro fuel
  induction fuel with
  | zero =>
    intro l c hc
    simp [sliceChunksGo] at hc
  | succ n ih =>
    intro l c hc
    cases l with
    | nil => simp [sliceChunksGo] at hc
    | cons x xs =>
      simp only [sliceChunksGo, List.mem_cons] at hc
      rcases hc with rfl | hc
      · simp
      · exact ih _ _ hc

/-- C10: when `synthesize` returns MP3 bytes, the streaming generator at the
default 240 ms chunk duration yields exactly the in-order byte slices of that
buffer — their concatenation is byte-for-byte the non-streaming output — and
every yielded chunk is non-empty, the chunk step being at least 1024 bytes. -/
theorem c10_streaming_concat (pipe : Option PipeBackend) (raw : Option RawBackend)
    (w2m : Wav → Bytes) (text : Str) (se : Bool) (mp3 : Bytes)
    (h : synthesize pipe raw w2m text se = .ok mp3) :
    synthesize_streaming pipe raw w2m text se 240
      = .ok (sliceChunks (streamStep mp3.length 240 - 1) mp3)
    ∧ (sliceChunks (streamStep mp3.length 240 - 1) mp3).flatten = mp3
    ∧ (∀ c ∈ sliceChunks (streamStep mp3.length 240 - 1) mp3, c ≠ [])
    ∧ 1024 ≤ streamStep mp3.length 240 := by
  refine ⟨?_, ?_, ?_, ?_⟩
  · unfold synthesize_streaming
    rw [h]
    rfl
  · exact sliceChunksGo_join _ _ _ le_rfl
  · intro c hc
    exact sliceChunksGo_ne_nil _ _ _ _ hc
  · unfold streamStep
    exact le_max_left _ _

/-- Witness for C10 at a concrete input: with no backends the placeholder
path yields `[1, 2, 3]` (under a toy encoder), streamed as a single chunk
whose concatenation is the full buffer. -/
theorem c10_streaming_concat_witness :
    synthesize_streaming none none (fun _ => [1, 2, 3]) ['x'] false 240
      = .ok (sliceChunks (streamStep 3 240 - 1) [1, 2, 3])
    ∧ (sliceChunks (streamStep 3 240 - 1) [1, 2, 3]).flatten = [1, 2, 3] := by
  have h := c10_streaming_concat none none (fun _ => [1, 2, 3]) ['x'] false [1, 2, 3] rfl
  exact ⟨h.1, h.2.1⟩

end OdiaTTS
